import Mathlib

/-!
Verification of the MELD flash-loan liquidation bot (`offchain-bot/main.py`).

This file gives a shallow embedding of the numeric planning logic, the
per-position orchestration loop (`trigger_logic`) and the transaction
execution routine (`liquidate`) of the bot, and proves or refutes the
frozen specification claims against it.

Python's `float` is IEEE-754 binary64; CPython rounds every arithmetic
operation (and `int / int` true division) once, to nearest, ties to even.
We model a `float` value as the exact rational number it denotes and model
each operation as exact rational arithmetic followed by `fpRound`, the
round-to-nearest-even projection onto 53-bit significands.  Exponent
overflow and subnormal underflow are not modelled (the magnitudes in this
program are far inside the normal range).  Python integers are unbounded,
modelled by `ℤ`.
-/

set_option linter.unusedVariables false

deriving instance DecidableEq for Except

/-! Section 1: the binary64 value model. -/

/-- Bit length of a natural number (`0 ↦ 0`, `1 ↦ 1`, `2,3 ↦ 2`, …),
computed with an explicit fuel argument so that it reduces in the kernel.
The fuel `m` itself always suffices since `⌊log₂ m⌋ + 1 ≤ m` for `m ≥ 1`. -/
def natBitLenAux : ℕ → ℕ → ℕ
  | 0, _ => 0
  | f + 1, m => if m = 0 then 0 else natBitLenAux f (m / 2) + 1

/-- Bit length of a natural number. -/
def natBitLen (m : ℕ) : ℕ := natBitLenAux m m

/-- Round a rational to the nearest integer, ties to even. -/
def rnearestEven (q : ℚ) : ℤ :=
  let n : ℤ := Int.ediv q.num (q.den : ℤ)
  let frac : ℚ := q - (n : ℚ)
  if frac < 1 / 2 then n
  else if (1 : ℚ) / 2 < frac then n + 1
  else if n % 2 = 0 then n else n + 1

/-- The binade exponent of a nonzero rational: the unique `e` with
`2 ^ e ≤ |q| < 2 ^ (e + 1)`.  Computed from the bit lengths of the
numerator and denominator, with a two-sided correction. -/
def ratExp (q : ℚ) : ℤ :=
  let a : ℚ := |q|
  let e0 : ℤ := (natBitLen a.num.natAbs : ℤ) - (natBitLen a.den : ℤ)
  if a < (2 : ℚ) ^ e0 then e0 - 1
  else if (2 : ℚ) ^ (e0 + 1) ≤ a then e0 + 1
  else e0

/-- Round an exact rational to the nearest IEEE-754 binary64 value
(round to nearest, ties to even), ignoring exponent overflow and
underflow.  The result is the exact rational the double denotes. -/
def fpRound (q : ℚ) : ℚ :=
  if q = 0 then 0
  else
    let e : ℤ := ratExp q
    let m : ℤ := rnearestEven (|q| * (2 : ℚ) ^ ((52 : ℤ) - e))
    let mag : ℚ := (m : ℚ) * (2 : ℚ) ^ (e - (52 : ℤ))
    if q < 0 then -mag else mag

/-- Python `float(x)` applied to a number: the binary64 value nearest `x`. -/
def pyFloat (q : ℚ) : ℚ := fpRound q

/-- Conversion of a Python `int` to binary64 (rounds once when the integer
needs more than 53 bits), as happens inside `int * float` and `int + float`. -/
def intToF (n : ℤ) : ℚ := fpRound (n : ℚ)

/-- Python binary64 addition: exact sum, rounded once. -/
def fadd (a b : ℚ) : ℚ := fpRound (a + b)

/-- Python binary64 subtraction: exact difference, rounded once. -/
def fsub (a b : ℚ) : ℚ := fpRound (a - b)

/-- Python binary64 multiplication: exact product, rounded once. -/
def fmul (a b : ℚ) : ℚ := fpRound (a * b)

/-- Python binary64 division: exact quotient, rounded once.  Total with
junk value `0` at a zero divisor; every use below either has a nonzero
constant divisor or sits behind an explicit `ZeroDivisionError` guard. -/
def fdiv (a b : ℚ) : ℚ := fpRound (a / b)

/-- Python `int / int` true division: CPython produces the correctly
rounded binary64 of the exact quotient (a single rounding). -/
def pyIntTrueDiv (a b : ℤ) : ℚ := fpRound ((a : ℚ) / (b : ℚ))

/-- Python `int(x)` on a float: truncation toward zero. -/
def pyInt (q : ℚ) : ℤ :=
  if 0 ≤ q then Int.ediv q.num (q.den : ℤ) else -(Int.ediv (-q).num ((-q).den : ℤ))

/-! Section 2: the data model (source lines 127-208).  The position data
arrives as JSON from the position-source API; fiat amounts and prices are
JSON numbers held as Python floats, token base-unit amounts are unbounded
integers.  The field names (including the `supliedAssets` misspelling)
follow the source. -/

/-- `StableRate` (source lines 191-199). -/
structure StableRate where
  fiatAmount : ℚ
  originalBorrowedAmount : ℤ
  rate : ℚ
  totalBorrowedAmount : ℤ
deriving DecidableEq, Repr

/-- `VariableRate` (source lines 201-208). -/
structure VariableRate where
  fiatAmount : ℚ
  originalBorrowedAmount : ℤ
  totalBorrowedAmount : ℤ
deriving DecidableEq, Repr

/-- `BorrowedAsset` (source lines 160-177). -/
structure BorrowedAsset where
  contract : String
  liquidationPrice : ℚ
  stableRate : StableRate
  variableRate : VariableRate
deriving DecidableEq, Repr

/-- `SuppliedAsset` (source lines 179-189). -/
structure SuppliedAsset where
  contract : String
  fiatAmount : ℚ
  isCollateral : Bool
  liquidationPrice : ℚ
  originalSuppliedAmount : ℤ
  totalSuppliedAmount : ℤ
deriving DecidableEq, Repr

/-- `LiquidatablePosition` (source lines 127-157). -/
structure LiquidatablePosition where
  address : String
  riskFactor : ℚ
  borrowedAssets : List BorrowedAsset
  supliedAssets : List SuppliedAsset
deriving DecidableEq, Repr

/-! Section 3: the liquidation planner (source lines 274-308). -/

/-- The read-only chain state consulted by the planner:
`lendingPoolContract.functions.liquidationProtocolFeePercentage().call()`
(raw integer), index 3 of
`dataProviderContract.functions.getReserveConfigurationData(addr).call()`
(raw integer, per collateral asset), and ERC20 `decimals()` per token. -/
structure PlanChain where
  liquidationProtocolFeePercentage : ℤ
  getReserveConfigurationData3 : String → ℤ
  decimals : String → ℕ

/-- The uncaught Python exceptions relevant to the bot:
`ZeroDivisionError` from a division whose denominator is zero, and
`AttributeError` from evaluating `e.message` on an exception object that
has no `message` attribute (source line 325). -/
inductive PyErr where
  | zeroDivisionError
  | attributeError
deriving DecidableEq, Repr

/-- Source lines 274-281:
`liquidationProtocolFee = ....liquidationProtocolFeePercentage().call() / 100`,
`liquidationBonus = ....getReserveConfigurationData(collateralAddress).call()[3] / 100 - 100`,
`liquidationScaleFactor = 1 + liquidationBonus * (1 + liquidationProtocolFee / 100) / 100`,
every operation in binary64. -/
def liquidationScaleFactor (ch : PlanChain) (collateralAddress : String) : ℚ :=
  let liquidationProtocolFee := pyIntTrueDiv ch.liquidationProtocolFeePercentage 100
  let liquidationBonus :=
    fsub (pyIntTrueDiv (ch.getReserveConfigurationData3 collateralAddress) 100) (intToF 100)
  fadd (intToF 1)
    (fdiv (fmul liquidationBonus (fadd (intToF 1) (fdiv liquidationProtocolFee (intToF 100))))
      (intToF 100))

/-- Source line 291: the USD price of one whole debt token,
`oneDebtInUSD = float(fiatAmount) / float(int(totalBorrowedAmount) / pow(10, dDecimals))`.
The argument `debtUnits` is the already-computed inner quotient. -/
def oneDebtInUSD (b : BorrowedAsset) (debtUnits : ℚ) : ℚ :=
  fdiv (pyFloat b.variableRate.fiatAmount) debtUnits

/-- Source lines 299-306 as a function of the quantities the claim names:
`debtToCover = float(collateralFiat) / oneDebtUSD / scaleFactor`, then
`int(int(debtToCover * pow(10, dDecimals)) * 1.01)` where `1.01` is the
binary64 literal. -/
def debtToCoverFormula (collateralFiat oneDebtUSD scaleFactor : ℚ) (dDecimals : ℕ) : ℤ :=
  let debtToCoverTokens := fdiv (fdiv (pyFloat collateralFiat) oneDebtUSD) scaleFactor
  let margin := fpRound (101 / 100)
  pyInt (fmul (intToF (pyInt (fmul debtToCoverTokens (intToF ((10 : ℤ) ^ dDecimals))))) margin)

/-- The planning step for one (collateral, debt) pair, source lines
274-308.  Returns the list of tokens whose `decimals()` the code queried
(in query order) and either the computed integer `debtToCover` or the
uncaught Python exception the code raises.

Branch selection (line 284):
`if float(b.variableRate.fiatAmount) * liquidationScaleFactor < float(c.fiatAmount)`
then `debtToCover = int(b.variableRate.totalBorrowedAmount)` (line 286);
otherwise lines 290-306 run: query debt `decimals()`, divide (can raise
`ZeroDivisionError` when the inner quotient is the float `0.0`, i.e. when
`totalBorrowedAmount = 0`), query collateral `decimals()`, compute the
diagnostic `oneCollateralInUSD` (can raise when `totalSuppliedAmount = 0`),
then `debtToCover = float(c.fiatAmount) / oneDebtInUSD / liquidationScaleFactor`
(can raise when `oneDebtInUSD` or the scale factor is `0.0`), and finally
the margin step of `debtToCoverFormula`. -/
def planPair (ch : PlanChain) (c : SuppliedAsset) (b : BorrowedAsset) :
    List String × Except PyErr ℤ :=
  let sf := liquidationScaleFactor ch c.contract
  if fmul (pyFloat b.variableRate.fiatAmount) sf < pyFloat c.fiatAmount then
    ([], .ok b.variableRate.totalBorrowedAmount)
  else
    let dDecimals := ch.decimals b.contract
    let debtUnits := pyIntTrueDiv b.variableRate.totalBorrowedAmount ((10 : ℤ) ^ dDecimals)
    if debtUnits = 0 then ([b.contract], .error .zeroDivisionError)
    else
      let oneDebt := oneDebtInUSD b debtUnits
      let cDecimals := ch.decimals c.contract
      let collUnits := pyIntTrueDiv c.totalSuppliedAmount ((10 : ℤ) ^ cDecimals)
      if collUnits = 0 then ([b.contract, c.contract], .error .zeroDivisionError)
      else
        let oneCollateralInUSD := fdiv (pyFloat c.fiatAmount) collUnits
        if oneDebt = 0 then ([b.contract, c.contract], .error .zeroDivisionError)
        else if sf = 0 then ([b.contract, c.contract], .error .zeroDivisionError)
        else
          ([b.contract, c.contract],
            .ok (debtToCoverFormula c.fiatAmount oneDebt sf dDecimals))

/-! Section 4: the orchestration loop `trigger_logic` (source lines
235-327).  Each observable action of the loop is recorded as an `Event`;
the run either completes or is aborted by an uncaught exception. -/

/-- Observable actions of `trigger_logic`, in program order. -/
inductive Event where
  /-- The collateral was printed at the top of the collateral loop (line 254). -/
  | consideredCollateral (user coll : String)
  /-- The sub-dollar collateral was skipped (lines 256-259). -/
  | skippedDustCollateral (user coll : String)
  /-- The pair entered the debt-loop body: debt printed, fee and reserve
  configuration queried, scale factor computed (lines 264-281). -/
  | evaluatedPair (user coll debt : String)
  /-- An ERC20 `decimals()` query (lines 290 and 294). -/
  | queriedDecimals (token : String)
  /-- A `debtToCover` was computed for the pair (line 286 or 306). -/
  | planned (user coll debt : String) (debtToCover : ℤ)
  /-- `liquidate` was called for the pair (lines 310-318). -/
  | attempted (user coll debt : String) (debtToCover : ℤ)
  /-- The failure banner of the `except` handler was printed (line 324). -/
  | liquidationFailed (user coll debt : String)
  /-- The success message was printed (line 319). -/
  | liquidationSucceeded (user : String)
deriving DecidableEq, Repr

/-- Outcome of one `liquidate` call as observed by the `except Exception`
handler: success, or an exception object that either does or does not
carry a `message` attribute (Python 3 exceptions in general do not). -/
inductive ExecOutcome where
  | success
  | failure (hasMessageAttr : Bool)
deriving DecidableEq, Repr

/-- Oracle giving the outcome of each execution attempt, keyed by
borrower, collateral, debt and the submitted `debtToCover`. -/
def ExecOracle := String → String → String → ℤ → ExecOutcome

/-- Result of the debt loop for one collateral (lines 264-325). -/
inductive DebtLoopResult where
  /-- An attempt succeeded: `done = True; break` (lines 321-322). -/
  | success
  /-- Every debt candidate was tried without success. -/
  | exhausted
  /-- An uncaught exception aborted the whole run. -/
  | aborted (e : PyErr)
deriving DecidableEq, Repr

/-- The debt loop for one collateral (source lines 264-325): for each
borrowed asset, plan (uncaught planner exceptions abort the run), call
`liquidate`, and on failure run the `except` handler, which prints the
banner and then evaluates `e.message` — aborting the run with
`AttributeError` when the exception has no such attribute. -/
def runDebts (ch : PlanChain) (ex : ExecOracle) (user : String) (c : SuppliedAsset) :
    List BorrowedAsset → List Event × DebtLoopResult
  | [] => ([], .exhausted)
  | b :: bs =>
    let ev0 := Event.evaluatedPair user c.contract b.contract
    match planPair ch c b with
    | (toks, .error e) => (ev0 :: toks.map Event.queriedDecimals, .aborted e)
    | (toks, .ok dtc) =>
      let evs := ev0 :: toks.map Event.queriedDecimals ++
        [Event.planned user c.contract b.contract dtc,
         Event.attempted user c.contract b.contract dtc]
      match ex user c.contract b.contract dtc with
      | .success => (evs ++ [Event.liquidationSucceeded user], .success)
      | .failure true =>
        let r := runDebts ch ex user c bs
        (evs ++ Event.liquidationFailed user c.contract b.contract :: r.1, r.2)
      | .failure false =>
        (evs ++ [Event.liquidationFailed user c.contract b.contract], .aborted .attributeError)

/-- The collateral loop (source lines 250-262): print the collateral,
skip it when `float(c.fiatAmount) < 1`, break when `done` is already set,
otherwise run the debt loop and set `done` on success.  The `done` check
sits after the dust check, exactly as in the source. -/
def runCollaterals (ch : PlanChain) (ex : ExecOracle) (user : String)
    (bs : List BorrowedAsset) : Bool → List SuppliedAsset → List Event × Option PyErr
  | _, [] => ([], none)
  | done, c :: cs =>
    let ev0 := Event.consideredCollateral user c.contract
    if pyFloat c.fiatAmount < 1 then
      let r := runCollaterals ch ex user bs done cs
      (ev0 :: Event.skippedDustCollateral user c.contract :: r.1, r.2)
    else if done then ([ev0], none)
    else
      match runDebts ch ex user c bs with
      | (evs, .aborted e) => (ev0 :: evs, some e)
      | (evs, .success) =>
        let r := runCollaterals ch ex user bs true cs
        (ev0 :: evs ++ r.1, r.2)
      | (evs, .exhausted) =>
        let r := runCollaterals ch ex user bs false cs
        (ev0 :: evs ++ r.1, r.2)

/-- Source line 248: the in-place filter
`[asset for asset in liquidatablePosition.supliedAssets if asset.isCollateral == True]`. -/
def collateralCandidates (p : LiquidatablePosition) : List SuppliedAsset :=
  p.supliedAssets.filter (fun asset => asset.isCollateral)

/-- Processing of one liquidatable position (source lines 243-325). -/
def runPosition (ch : PlanChain) (ex : ExecOracle) (p : LiquidatablePosition) :
    List Event × Option PyErr :=
  runCollaterals ch ex p.address p.borrowedAssets false (collateralCandidates p)

/-- `trigger_logic` over the fetched position list (source lines 235-327):
positions are processed strictly sequentially; an uncaught exception while
processing one position aborts the whole run. -/
def trigger_logic (ch : PlanChain) (ex : ExecOracle) :
    List LiquidatablePosition → List Event × Option PyErr
  | [] => ([], none)
  | p :: ps =>
    match runPosition ch ex p with
    | (evs, some e) => (evs, some e)
    | (evs, none) =>
      let r := trigger_logic ch ex ps
      (evs ++ r.1, r.2)

/-! Section 5: the transaction execution routine `liquidate` (source
lines 211-232). -/

/-- The dictionary passed to `build_transaction` merged with the contract
call arguments of `liquidateUserWithFlashLoan` (source lines 217-227). -/
structure BuiltTransaction where
  debtAsset : String
  debtToCover : ℤ
  collateralAsset : String
  userToLiquidate : String
  assetPath : List String
  chainId : ℕ
  sender : String
  nonce : ℕ
deriving DecidableEq, Repr

/-- A confirmed transaction receipt; only its `transactionHash` field is
used (source line 232). -/
structure TxReceipt where
  transactionHash : ℕ
deriving DecidableEq, Repr

/-- The chain-client primitives `liquidate` consumes.  Raw transaction
bytes and hashes are abstracted as natural numbers; `toHex` is the
`w3.to_hex` / `.hex()` encoding.  `sendRawTransactionResult` is the value
the node returns from `send_raw_transaction` — the source discards it. -/
structure ExecChain where
  chainId : ℕ
  getTransactionCount : String → ℕ
  signTransaction : String → BuiltTransaction → ℕ
  keccak : ℕ → ℕ
  toHex : ℕ → String
  sendRawTransactionResult : ℕ → ℕ
  waitForTransactionReceipt : String → TxReceipt

/-- The chain-facing steps of one `liquidate` call, in program order. -/
inductive ExecStep where
  | builtTransaction (tx : BuiltTransaction)
  | signedTransaction (rawTransaction : ℕ)
  | computedLocalTxHash (txHash : String)
  | sentRawTransaction (rawTransaction : ℕ) (nodeReturn : ℕ)
  | waitedForReceipt (txHash : String) (receipt : TxReceipt)
  | printedTxHash (hexHash : String)
deriving DecidableEq, Repr

/-- What one `liquidate` call did and what it handed back to its caller. -/
structure LiquidateResult where
  steps : List ExecStep
  awaitedTxHash : String
  receipt : TxReceipt
  returnValue : Option String
deriving Repr

/-- The transaction-building step of `liquidate` (source lines 217-227):
the `liquidateUserWithFlashLoan` call arguments together with chain id,
sender and a freshly queried account nonce. -/
def buildTransaction (ch : ExecChain)
    (collateralAddress debtAddress caller walletToLiquidateAddress : String)
    (debtToCover : ℤ) : BuiltTransaction :=
  { debtAsset := debtAddress
    debtToCover := debtToCover
    collateralAsset := collateralAddress
    userToLiquidate := walletToLiquidateAddress
    assetPath := [collateralAddress, debtAddress]
    chainId := ch.chainId
    sender := caller
    nonce := ch.getTransactionCount caller }

/-- `liquidate` (source lines 211-232), successful path: build the call
with a freshly queried nonce, sign it, compute
`tx_hash = w3.to_hex(w3.keccak(signed_txn.rawTransaction))` locally,
submit the raw transaction (discarding the node's reply), block on
`wait_for_transaction_receipt(tx_hash)`, print the receipt's transaction
hash — and return `None`: the Python function has no `return` statement. -/
def liquidate (ch : ExecChain)
    (collateralAddress debtAddress pk caller walletToLiquidateAddress : String)
    (debtToCover : ℤ) : LiquidateResult :=
  let transaction : BuiltTransaction :=
    buildTransaction ch collateralAddress debtAddress caller walletToLiquidateAddress debtToCover
  let signed_txn := ch.signTransaction pk transaction
  let tx_hash := ch.toHex (ch.keccak signed_txn)
  let nodeReturn := ch.sendRawTransactionResult signed_txn
  let receipt := ch.waitForTransactionReceipt tx_hash
  { steps :=
      [.builtTransaction transaction,
       .signedTransaction signed_txn,
       .computedLocalTxHash tx_hash,
       .sentRawTransaction signed_txn nodeReturn,
       .waitedForReceipt tx_hash receipt,
       .printedTxHash (ch.toHex receipt.transactionHash)]
    awaitedTxHash := tx_hash
    receipt := receipt
    returnValue := none }

/-! Section 6: branch lemmas for the planner. -/

/-- Branch A (source lines 284-286): when the scaled variable debt fiat is
below the collateral fiat, the plan is the full variable borrowed amount
and no `decimals()` query is made. -/
lemma planPair_fullRepay (ch : PlanChain) (c : SuppliedAsset) (b : BorrowedAsset)
    (h : fmul (pyFloat b.variableRate.fiatAmount) (liquidationScaleFactor ch c.contract) <
      pyFloat c.fiatAmount) :
    planPair ch c b = ([], Except.ok b.variableRate.totalBorrowedAmount) := by
  simp [planPair, h]

/-- Branch B (source lines 287-308) with all four divisions well defined. -/
lemma planPair_partialRepay (ch : PlanChain) (c : SuppliedAsset) (b : BorrowedAsset)
    (hB : ¬ fmul (pyFloat b.variableRate.fiatAmount) (liquidationScaleFactor ch c.contract) <
      pyFloat c.fiatAmount)
    (h1 : pyIntTrueDiv b.variableRate.totalBorrowedAmount ((10 : ℤ) ^ ch.decimals b.contract) ≠ 0)
    (h2 : pyIntTrueDiv c.totalSuppliedAmount ((10 : ℤ) ^ ch.decimals c.contract) ≠ 0)
    (h3 : oneDebtInUSD b
      (pyIntTrueDiv b.variableRate.totalBorrowedAmount ((10 : ℤ) ^ ch.decimals b.contract)) ≠ 0)
    (h4 : liquidationScaleFactor ch c.contract ≠ 0) :
    planPair ch c b = ([b.contract, c.contract],
      Except.ok (debtToCoverFormula c.fiatAmount
        (oneDebtInUSD b
          (pyIntTrueDiv b.variableRate.totalBorrowedAmount ((10 : ℤ) ^ ch.decimals b.contract)))
        (liquidationScaleFactor ch c.contract) (ch.decimals b.contract))) := by
  simp [planPair, hB, h1, h2, h3, h4]

/-- Branch B reached with a zero variable `totalBorrowedAmount`: the inner
quotient of line 291 is the float `0.0` and the outer division raises an
uncaught `ZeroDivisionError` right after the debt `decimals()` query. -/
lemma planPair_zeroVariableDebt (ch : PlanChain) (c : SuppliedAsset) (b : BorrowedAsset)
    (hB : ¬ fmul (pyFloat b.variableRate.fiatAmount) (liquidationScaleFactor ch c.contract) <
      pyFloat c.fiatAmount)
    (h0 : b.variableRate.totalBorrowedAmount = 0) :
    planPair ch c b = ([b.contract], Except.error PyErr.zeroDivisionError) := by
  have hz : pyIntTrueDiv b.variableRate.totalBorrowedAmount
      ((10 : ℤ) ^ ch.decimals b.contract) = 0 := by
    simp [pyIntTrueDiv, h0, fpRound]
  simp [planPair, hB, hz]

section
attribute [local semireducible] Rat.add Rat.mul Rat.sub Rat.inv
set_option maxRecDepth 1000000
set_option maxHeartbeats 1000000

/-- Claim C6: for every attempted pair, with the raw on-chain protocol fee
and the raw reserve-configuration field (index 3), the scale factor equals
exactly `1 + liquidationBonus * (1 + liquidationProtocolFee / 100) / 100`
where `liquidationProtocolFee` is the raw fee divided by 100 and
`liquidationBonus` is the raw configuration value divided by 100 minus
100; with bonus 5 (raw 10500) and fee 10 (raw 1000) the scale factor is
the binary64 value `1.055`. -/
theorem claim_C6_scaleFactor_formula (ch : PlanChain) (addr : String) :
    liquidationScaleFactor ch addr =
      fadd (intToF 1)
        (fdiv
          (fmul (fsub (pyIntTrueDiv (ch.getReserveConfigurationData3 addr) 100) (intToF 100))
            (fadd (intToF 1) (fdiv (pyIntTrueDiv ch.liquidationProtocolFeePercentage 100) (intToF 100))))
          (intToF 100)) ∧
    liquidationScaleFactor ⟨1000, fun _ => 10500, fun _ => 18⟩ "0xC" = fpRound (1055 / 1000) :=
  ⟨rfl, by decide⟩

/-- Claim C7: whenever the scaled variable debt fiat is strictly below the
collateral fiat, the full-repay branch is taken: the plan equals the
variable `totalBorrowedAmount` exactly, and no `decimals()` lookup (and
hence no unit conversion) is made. -/
theorem claim_C7_full_repay_branch (ch : PlanChain) (c : SuppliedAsset) (b : BorrowedAsset)
    (h : fmul (pyFloat b.variableRate.fiatAmount) (liquidationScaleFactor ch c.contract) <
      pyFloat c.fiatAmount) :
    planPair ch c b = ([], Except.ok b.variableRate.totalBorrowedAmount) :=
  planPair_fullRepay ch c b h

/-- Witness for C7: collateral fiat 100, debt fiat 10, scale factor the
binary64 value 1.055 (raw fee 1000, raw bonus field 10500), variable
`totalBorrowedAmount` 5. -/
theorem claim_C7_witness :
    (fmul (pyFloat 10)
        (liquidationScaleFactor ⟨1000, fun _ => 10500, fun _ => 18⟩ "cA") < pyFloat 100) ∧
    planPair ⟨1000, fun _ => 10500, fun _ => 18⟩
        ⟨"cA", 100, true, 0, 0, 10 ^ 20⟩
        ⟨"dA", 0, ⟨0, 0, 0, 0⟩, ⟨10, 0, 5⟩⟩ = ([], Except.ok 5) :=
  ⟨by decide,
   claim_C7_full_repay_branch ⟨1000, fun _ => 10500, fun _ => 18⟩
     ⟨"cA", 100, true, 0, 0, 10 ^ 20⟩ ⟨"dA", 0, ⟨0, 0, 0, 0⟩, ⟨10, 0, 5⟩⟩ (by decide)⟩

/-- Claim C3: in the partial-repay branch (with every division well
defined) the planned amount equals
`int(int((collateralFiat / oneDebtUSD / scaleFactor) * 10 ^ debtDecimals) * 1.01)`
— scale to base units, truncate, multiply by the binary64 literal 1.01,
truncate again; with collateralFiat 100, oneDebtUSD 1.0, scaleFactor the
binary64 value 1.05 and 18 debt decimals the exact integer is
96190476190476189696. -/
theorem claim_C3_partial_repay_formula (ch : PlanChain) (c : SuppliedAsset) (b : BorrowedAsset)
    (hB : ¬ fmul (pyFloat b.variableRate.fiatAmount) (liquidationScaleFactor ch c.contract) <
      pyFloat c.fiatAmount)
    (h1 : pyIntTrueDiv b.variableRate.totalBorrowedAmount ((10 : ℤ) ^ ch.decimals b.contract) ≠ 0)
    (h2 : pyIntTrueDiv c.totalSuppliedAmount ((10 : ℤ) ^ ch.decimals c.contract) ≠ 0)
    (h3 : oneDebtInUSD b
      (pyIntTrueDiv b.variableRate.totalBorrowedAmount ((10 : ℤ) ^ ch.decimals b.contract)) ≠ 0)
    (h4 : liquidationScaleFactor ch c.contract ≠ 0) :
    (planPair ch c b).2 = Except.ok (debtToCoverFormula c.fiatAmount
        (oneDebtInUSD b
          (pyIntTrueDiv b.variableRate.totalBorrowedAmount ((10 : ℤ) ^ ch.decimals b.contract)))
        (liquidationScaleFactor ch c.contract) (ch.decimals b.contract)) ∧
    debtToCoverFormula 100 1 (fpRound (105 / 100)) 18 = 96190476190476189696 :=
  ⟨by rw [planPair_partialRepay ch c b hB h1 h2 h3 h4], by decide⟩

/-- Witness for C3: raw fee 0 and raw bonus field 10500 give scale factor
1.05; debt fiat 200 with 2·10²⁰ base units at 18 decimals gives
oneDebtUSD = 1.0; collateral fiat 100. -/
theorem claim_C3_witness :
    (¬ fmul (pyFloat 200)
        (liquidationScaleFactor ⟨0, fun _ => 10500, fun _ => 18⟩ "cA") < pyFloat 100) ∧
    ((planPair ⟨0, fun _ => 10500, fun _ => 18⟩
        ⟨"cA", 100, true, 0, 0, 10 ^ 20⟩
        ⟨"dA", 0, ⟨0, 0, 0, 0⟩, ⟨200, 0, 2 * 10 ^ 20⟩⟩).2 =
      Except.ok (debtToCoverFormula 100
        (oneDebtInUSD ⟨"dA", 0, ⟨0, 0, 0, 0⟩, ⟨200, 0, 2 * 10 ^ 20⟩⟩
          (pyIntTrueDiv (2 * 10 ^ 20) ((10 : ℤ) ^ (18 : ℕ))))
        (liquidationScaleFactor ⟨0, fun _ => 10500, fun _ => 18⟩ "cA") 18) ∧
      debtToCoverFormula 100 1 (fpRound (105 / 100)) 18 = 96190476190476189696) :=
  ⟨by decide,
   claim_C3_partial_repay_formula ⟨0, fun _ => 10500, fun _ => 18⟩
     ⟨"cA", 100, true, 0, 0, 10 ^ 20⟩ ⟨"dA", 0, ⟨0, 0, 0, 0⟩, ⟨200, 0, 2 * 10 ^ 20⟩⟩
     (by decide) (by decide) (by decide) (by decide) (by decide)⟩

/-- Counterexample to claim C5 as stated: with collateral fiat 5 and a
debt whose variable fiat amount and `totalBorrowedAmount` are both zero,
the full-repay branch is selected and the planner produces the plan `0`
— not a strictly positive amount and not a planning error. -/
theorem claim_C5_counterexample :
    (planPair ⟨1000, fun _ => 10500, fun _ => 18⟩
        ⟨"cA", 5, true, 0, 0, 10 ^ 20⟩
        ⟨"dA", 0, ⟨0, 0, 0, 0⟩, ⟨0, 0, 0⟩⟩).2 = Except.ok 0 := by decide

/-- Claim C5 amended: the planner has no positivity check — in the
full-repay branch the plan equals `totalBorrowedAmount` even when that is
zero or negative, and the pair is still attempted (passed to `liquidate`)
with that non-positive amount. -/
theorem claim_C5_no_positivity_check (ch : PlanChain) (ex : ExecOracle) (user : String)
    (c : SuppliedAsset) (b : BorrowedAsset) (bs : List BorrowedAsset)
    (hA : fmul (pyFloat b.variableRate.fiatAmount) (liquidationScaleFactor ch c.contract) <
      pyFloat c.fiatAmount)
    (hle : b.variableRate.totalBorrowedAmount ≤ 0) :
    Event.attempted user c.contract b.contract b.variableRate.totalBorrowedAmount ∈
      (runDebts ch ex user c (b :: bs)).1 := by
  have hp := planPair_fullRepay ch c b hA
  cases hx : ex user c.contract b.contract b.variableRate.totalBorrowedAmount with
  | success => simp [runDebts, hp, hx]
  | failure hm => cases hm <;> simp [runDebts, hp, hx]

/-- Witness for C5 (amended): the zero plan of the counterexample input is
submitted to execution. -/
theorem claim_C5_witness :
    (fmul (pyFloat 0)
        (liquidationScaleFactor ⟨1000, fun _ => 10500, fun _ => 18⟩ "cA") < pyFloat 5) ∧
    ((0 : ℤ) ≤ 0) ∧
    Event.attempted "u1" "cA" "dA" 0 ∈
      (runDebts ⟨1000, fun _ => 10500, fun _ => 18⟩ (fun _ _ _ _ => .failure true) "u1"
        ⟨"cA", 5, true, 0, 0, 10 ^ 20⟩ [⟨"dA", 0, ⟨0, 0, 0, 0⟩, ⟨0, 0, 0⟩⟩]).1 :=
  ⟨by decide, by decide,
   claim_C5_no_positivity_check ⟨1000, fun _ => 10500, fun _ => 18⟩
     (fun _ _ _ _ => .failure true) "u1" ⟨"cA", 5, true, 0, 0, 10 ^ 20⟩
     ⟨"dA", 0, ⟨0, 0, 0, 0⟩, ⟨0, 0, 0⟩⟩ [] (by decide) (by decide)⟩

/-- Counterexample to claim C2 as stated: a collateral worth 100 USD and a
debt with variable fiat 200 but zero variable `totalBorrowedAmount` reach
the partial-repay branch; the resulting `ZeroDivisionError` is not logged
and the pair is not skipped — the whole run aborts immediately after the
debt `decimals()` query, and the second debt candidate `dB` is never
evaluated. -/
theorem claim_C2_counterexample :
    trigger_logic ⟨0, fun _ => 10500, fun _ => 18⟩ (fun _ _ _ _ => .failure true)
      [⟨"u1", 2, [⟨"dA", 0, ⟨0, 0, 0, 0⟩, ⟨200, 0, 0⟩⟩, ⟨"dB", 0, ⟨0, 0, 0, 0⟩, ⟨10, 0, 7⟩⟩],
        [⟨"cA", 100, true, 0, 0, 10 ^ 20⟩]⟩] =
    ([Event.consideredCollateral "u1" "cA", Event.evaluatedPair "u1" "cA" "dA",
      Event.queriedDecimals "dA"], some PyErr.zeroDivisionError) := by decide

/-- Claim C2 amended: a zero variable `totalBorrowedAmount` reaching the
partial-repay branch raises an uncaught `ZeroDivisionError` that aborts
the entire run; the pair is not logged as a failure, not skipped, and no
further debt candidate of the collateral is evaluated. -/
theorem claim_C2_zero_debt_aborts_run (ch : PlanChain) (ex : ExecOracle) (user : String)
    (c : SuppliedAsset) (b : BorrowedAsset) (bs : List BorrowedAsset)
    (hB : ¬ fmul (pyFloat b.variableRate.fiatAmount) (liquidationScaleFactor ch c.contract) <
      pyFloat c.fiatAmount)
    (h0 : b.variableRate.totalBorrowedAmount = 0) :
    runDebts ch ex user c (b :: bs) =
      ([Event.evaluatedPair user c.contract b.contract, Event.queriedDecimals b.contract],
        DebtLoopResult.aborted PyErr.zeroDivisionError) := by
  have hp := planPair_zeroVariableDebt ch c b hB h0
  simp [runDebts, hp]

/-- Witness for C2 (amended) at the counterexample inputs. -/
theorem claim_C2_witness :
    (¬ fmul (pyFloat 200)
        (liquidationScaleFactor ⟨0, fun _ => 10500, fun _ => 18⟩ "cA") < pyFloat 100) ∧
    runDebts ⟨0, fun _ => 10500, fun _ => 18⟩ (fun _ _ _ _ => .failure true) "u1"
        ⟨"cA", 100, true, 0, 0, 10 ^ 20⟩
        [⟨"dA", 0, ⟨0, 0, 0, 0⟩, ⟨200, 0, 0⟩⟩, ⟨"dB", 0, ⟨0, 0, 0, 0⟩, ⟨10, 0, 7⟩⟩] =
      ([Event.evaluatedPair "u1" "cA" "dA", Event.queriedDecimals "dA"],
        DebtLoopResult.aborted PyErr.zeroDivisionError) :=
  ⟨by decide,
   claim_C2_zero_debt_aborts_run ⟨0, fun _ => 10500, fun _ => 18⟩
     (fun _ _ _ _ => .failure true) "u1" ⟨"cA", 100, true, 0, 0, 10 ^ 20⟩
     ⟨"dA", 0, ⟨0, 0, 0, 0⟩, ⟨200, 0, 0⟩⟩ [⟨"dB", 0, ⟨0, 0, 0, 0⟩, ⟨10, 0, 7⟩⟩]
     (by decide) rfl⟩

end

/-! Section 7: executor claims. -/

/-- Claim C9 amended: on a successful execution the routine prints the
receipt's transaction hash but hands `None` back to its caller — success
is communicated only by the absence of an exception, not by a returned
receipt or hash value. -/
theorem claim_C9_returns_none (ch : ExecChain)
    (collateralAddress debtAddress pk caller user : String) (debtToCover : ℤ) :
    (liquidate ch collateralAddress debtAddress pk caller user debtToCover).returnValue = none ∧
    (liquidate ch collateralAddress debtAddress pk caller user debtToCover).steps.get? 5 =
      some (ExecStep.printedTxHash (ch.toHex
        (ch.waitForTransactionReceipt
          (liquidate ch collateralAddress debtAddress pk caller user
            debtToCover).awaitedTxHash).transactionHash)) :=
  ⟨rfl, rfl⟩

/-- Counterexample to claim C9 as stated: a concrete successful
`liquidate` call whose returned value is `none`, not the transaction hash
of the confirmed transaction (which the call did compute and print). -/
theorem claim_C9_counterexample :
    (liquidate ⟨1, fun _ => 0, fun _ _ => 7, fun n => n + 1, fun _ => "h", fun _ => 99,
        fun _ => ⟨42⟩⟩ "cA" "dA" "pk" "me" "u1" 5).returnValue = none ∧
    (liquidate ⟨1, fun _ => 0, fun _ _ => 7, fun n => n + 1, fun _ => "h", fun _ => 99,
        fun _ => ⟨42⟩⟩ "cA" "dA" "pk" "me" "u1" 5).returnValue ≠
      some (liquidate ⟨1, fun _ => 0, fun _ _ => 7, fun n => n + 1, fun _ => "h", fun _ => 99,
        fun _ => ⟨42⟩⟩ "cA" "dA" "pk" "me" "u1" 5).awaitedTxHash := by
  exact ⟨rfl, by simp [liquidate]⟩

/-- Claim C10: the transaction hash on which the executor blocks is
computed locally as `keccak` of the signed raw transaction before
submission (trace position 2 precedes the submission at position 3), and
it does not depend on the value the node returns from
`send_raw_transaction`. -/
theorem claim_C10_local_hash (ch : ExecChain)
    (collateralAddress debtAddress pk caller user : String) (debtToCover : ℤ) :
    (liquidate ch collateralAddress debtAddress pk caller user debtToCover).awaitedTxHash =
      ch.toHex (ch.keccak (ch.signTransaction pk
        (buildTransaction ch collateralAddress debtAddress caller user debtToCover))) ∧
    (∀ f, (liquidate { ch with sendRawTransactionResult := f }
        collateralAddress debtAddress pk caller user debtToCover).awaitedTxHash =
      (liquidate ch collateralAddress debtAddress pk caller user debtToCover).awaitedTxHash) ∧
    (liquidate ch collateralAddress debtAddress pk caller user debtToCover).steps.get? 2 =
      some (ExecStep.computedLocalTxHash
        (liquidate ch collateralAddress debtAddress pk caller user debtToCover).awaitedTxHash) ∧
    (liquidate ch collateralAddress debtAddress pk caller user debtToCover).steps.get? 3 =
      some (ExecStep.sentRawTransaction
        (ch.signTransaction pk
          (buildTransaction ch collateralAddress debtAddress caller user debtToCover))
        (ch.sendRawTransactionResult (ch.signTransaction pk
          (buildTransaction ch collateralAddress debtAddress caller user debtToCover)))) :=
  ⟨rfl, fun _ => rfl, rfl, rfl⟩

/-! Section 8: orchestrator claims. -/

section
attribute [local semireducible] Rat.add Rat.mul Rat.sub Rat.inv
set_option maxRecDepth 1000000
set_option maxHeartbeats 1000000

/-- Claim C1 (code bug evaluated): when an execution attempt fails with an
exception that has no `message` attribute — the normal case for Python 3
exceptions — the `except` handler itself raises `AttributeError` at
`print(e.message)` (source line 325).  At this concrete input the first
pair's failure aborts the whole run: the failure banner is printed but the
second debt candidate `dB` is never evaluated and the run does not
continue. -/
theorem claim_C1_pair_failure_aborts_run :
    trigger_logic ⟨1000, fun _ => 10500, fun _ => 18⟩ (fun _ _ _ _ => .failure false)
      [⟨"u1", 2, [⟨"dA", 0, ⟨0, 0, 0, 0⟩, ⟨10, 0, 5⟩⟩, ⟨"dB", 0, ⟨0, 0, 0, 0⟩, ⟨10, 0, 7⟩⟩],
        [⟨"cA", 100, true, 0, 0, 10 ^ 20⟩]⟩] =
    ([Event.consideredCollateral "u1" "cA", Event.evaluatedPair "u1" "cA" "dA",
      Event.planned "u1" "cA" "dA" 5, Event.attempted "u1" "cA" "dA" 5,
      Event.liquidationFailed "u1" "cA" "dA"], some PyErr.attributeError) := by decide

/-- Claim C8: only supplied assets with `isCollateral = true` enter the
collateral loop, and a collateral with `float(fiatAmount) < 1` contributes
exactly its print and dust-skip events — no chain query, no planning and
no execution happen for it, and the loop state passes to the remaining
collaterals unchanged. -/
theorem claim_C8_filter_and_dust_guard (p : LiquidatablePosition) (a : SuppliedAsset)
    (ha : a ∈ collateralCandidates p) (ch : PlanChain) (ex : ExecOracle) (user : String)
    (bs : List BorrowedAsset) (done : Bool) (c : SuppliedAsset) (cs : List SuppliedAsset)
    (hc : pyFloat c.fiatAmount < 1) :
    a.isCollateral = true ∧
    (runCollaterals ch ex user bs done (c :: cs)).1 =
      Event.consideredCollateral user c.contract ::
        Event.skippedDustCollateral user c.contract ::
          (runCollaterals ch ex user bs done cs).1 ∧
    (runCollaterals ch ex user bs done (c :: cs)).2 =
      (runCollaterals ch ex user bs done cs).2 := by
  refine ⟨?_, ?_, ?_⟩
  · simpa using (List.mem_filter.mp ha).2
  · simp [runCollaterals, hc]
  · simp [runCollaterals, hc]

/-- Witness for C8: a position holding one collateral-flagged and one
non-flagged asset, and a 0.5 USD dust collateral processed in front of an
empty tail. -/
theorem claim_C8_witness :
    (⟨"cA", 100, true, 0, 0, 0⟩ : SuppliedAsset).isCollateral = true ∧
    (runCollaterals ⟨0, fun _ => 0, fun _ => 0⟩ (fun _ _ _ _ => .success) "u1" []
        false [⟨"cD", 1 / 2, true, 0, 0, 0⟩]).1 =
      Event.consideredCollateral "u1" "cD" ::
        Event.skippedDustCollateral "u1" "cD" ::
          (runCollaterals ⟨0, fun _ => 0, fun _ => 0⟩ (fun _ _ _ _ => .success) "u1" []
            false []).1 ∧
    (runCollaterals ⟨0, fun _ => 0, fun _ => 0⟩ (fun _ _ _ _ => .success) "u1" []
        false [⟨"cD", 1 / 2, true, 0, 0, 0⟩]).2 =
      (runCollaterals ⟨0, fun _ => 0, fun _ => 0⟩ (fun _ _ _ _ => .success) "u1" []
        false []).2 :=
  claim_C8_filter_and_dust_guard
    ⟨"u1", 2, [], [⟨"cA", 100, true, 0, 0, 0⟩, ⟨"cB", 100, false, 0, 0, 0⟩]⟩
    ⟨"cA", 100, true, 0, 0, 0⟩ (by decide) ⟨0, fun _ => 0, fun _ => 0⟩
    (fun _ _ _ _ => .success) "u1" [] false ⟨"cD", 1 / 2, true, 0, 0, 0⟩ [] (by decide)

end

/-! Section 9: the at-most-one-liquidation invariant (claim C4). -/

/-- Whether an event is the success message of a liquidation. -/
def Event.isSuccess : Event → Bool
  | .liquidationSucceeded _ => true
  | _ => false

/-- The only events the collateral loop can still produce once `done` is
set: printing a collateral and skipping it as dust. -/
def Event.isCollateralScan : Event → Bool
  | .consideredCollateral _ _ => true
  | .skippedDustCollateral _ _ => true
  | _ => false

/-- After every success event of the trace, all later events are mere
collateral-scan prints: nothing is evaluated, planned or attempted any
more. -/
def noFurtherAttemptAfterSuccess : List Event → Bool
  | [] => true
  | e :: rest =>
    (!e.isSuccess || rest.all Event.isCollateralScan) && noFurtherAttemptAfterSuccess rest

lemma scan_not_success {e : Event} (h : e.isCollateralScan = true) : e.isSuccess = false := by
  cases e <;> simp_all [Event.isCollateralScan, Event.isSuccess]

lemma nfaas_of_no_success {l : List Event} (h : l.all (fun e => !e.isSuccess) = true) :
    noFurtherAttemptAfterSuccess l = true := by
  induction l with
  | nil => rfl
  | cons e l ih =>
    simp only [List.all_cons, Bool.and_eq_true] at h
    simp [noFurtherAttemptAfterSuccess, h.1, ih h.2]

lemma nfaas_of_all_scan {l : List Event} (h : l.all Event.isCollateralScan = true) :
    noFurtherAttemptAfterSuccess l = true := by
  apply nfaas_of_no_success
  simp only [List.all_eq_true] at h ⊢
  intro e he
  simp [scan_not_success (h e he)]

lemma nfaas_append {l1 l2 : List Event} (h : l1.all (fun e => !e.isSuccess) = true) :
    noFurtherAttemptAfterSuccess (l1 ++ l2) = noFurtherAttemptAfterSuccess l2 := by
  induction l1 with
  | nil => rfl
  | cons e l ih =>
    simp only [List.all_cons, Bool.and_eq_true] at h
    simp [noFurtherAttemptAfterSuccess, h.1, ih h.2]

lemma nfaas_succ_cons {l : List Event} (u : String) (h : l.all Event.isCollateralScan = true) :
    noFurtherAttemptAfterSuccess (Event.liquidationSucceeded u :: l) = true := by
  simp [noFurtherAttemptAfterSuccess, Event.isSuccess, h, nfaas_of_all_scan h]

/-- The events of one planned-and-attempted pair (print, decimals
queries, plan, attempt). -/
def pairEvents (user : String) (c : SuppliedAsset) (b : BorrowedAsset)
    (toks : List String) (dtc : ℤ) : List Event :=
  Event.evaluatedPair user c.contract b.contract :: toks.map Event.queriedDecimals ++
    [Event.planned user c.contract b.contract dtc,
     Event.attempted user c.contract b.contract dtc]

lemma pairEvents_no_success (user : String) (c : SuppliedAsset) (b : BorrowedAsset)
    (toks : List String) (dtc : ℤ) :
    (pairEvents user c b toks dtc).all (fun e => !e.isSuccess) = true := by
  simp [pairEvents, List.all_map, Function.comp, Event.isSuccess]

lemma runDebts_cons_error {ch : PlanChain} {ex : ExecOracle} {user : String}
    {c : SuppliedAsset} {b : BorrowedAsset} {bs : List BorrowedAsset}
    {toks : List String} {e : PyErr} (hp : planPair ch c b = (toks, Except.error e)) :
    runDebts ch ex user c (b :: bs) =
      (Event.evaluatedPair user c.contract b.contract :: toks.map Event.queriedDecimals,
        DebtLoopResult.aborted e) := by
  simp [runDebts, hp]

lemma runDebts_cons_success {ch : PlanChain} {ex : ExecOracle} {user : String}
    {c : SuppliedAsset} {b : BorrowedAsset} {bs : List BorrowedAsset}
    {toks : List String} {dtc : ℤ} (hp : planPair ch c b = (toks, Except.ok dtc))
    (hx : ex user c.contract b.contract dtc = .success) :
    runDebts ch ex user c (b :: bs) =
      (pairEvents user c b toks dtc ++ [Event.liquidationSucceeded user],
        DebtLoopResult.success) := by
  simp [runDebts, pairEvents, hp, hx]

lemma runDebts_cons_failtrue {ch : PlanChain} {ex : ExecOracle} {user : String}
    {c : SuppliedAsset} {b : BorrowedAsset} {bs : List BorrowedAsset}
    {toks : List String} {dtc : ℤ} (hp : planPair ch c b = (toks, Except.ok dtc))
    (hx : ex user c.contract b.contract dtc = .failure true) :
    runDebts ch ex user c (b :: bs) =
      (pairEvents user c b toks dtc ++
        Event.liquidationFailed user c.contract b.contract :: (runDebts ch ex user c bs).1,
        (runDebts ch ex user c bs).2) := by
  simp [runDebts, pairEvents, hp, hx]

lemma runDebts_cons_failfalse {ch : PlanChain} {ex : ExecOracle} {user : String}
    {c : SuppliedAsset} {b : BorrowedAsset} {bs : List BorrowedAsset}
    {toks : List String} {dtc : ℤ} (hp : planPair ch c b = (toks, Except.ok dtc))
    (hx : ex user c.contract b.contract dtc = .failure false) :
    runDebts ch ex user c (b :: bs) =
      (pairEvents user c b toks dtc ++ [Event.liquidationFailed user c.contract b.contract],
        DebtLoopResult.aborted PyErr.attributeError) := by
  simp [runDebts, pairEvents, hp, hx]

/-- The debt loop emits no success event unless its result is `success`. -/
lemma runDebts_no_success (ch : PlanChain) (ex : ExecOracle) (user : String)
    (c : SuppliedAsset) : ∀ bs, (runDebts ch ex user c bs).2 ≠ .success →
    (runDebts ch ex user c bs).1.all (fun e => !e.isSuccess) = true := by
  intro bs
  induction bs with
  | nil => intro _; rfl
  | cons b bs ih =>
    intro hr
    rcases hp : planPair ch c b with ⟨toks, r⟩
    cases r with
    | error e =>
      rw [runDebts_cons_error hp]
      simp [List.all_map, Function.comp, Event.isSuccess]
    | ok dtc =>
      cases hx : ex user c.contract b.contract dtc with
      | success => rw [runDebts_cons_success hp hx] at hr; simp at hr
      | failure hm =>
        cases hm with
        | true =>
          rw [runDebts_cons_failtrue hp hx] at hr ⊢
          simp only [List.all_append, List.all_cons, Bool.and_eq_true]
          refine ⟨pairEvents_no_success user c b toks dtc,
            by simp [Event.isSuccess], ih (by simpa using hr)⟩
        | false =>
          rw [runDebts_cons_failfalse hp hx]
          simp only [List.all_append, List.all_cons, List.all_nil, Bool.and_eq_true]
          refine ⟨pairEvents_no_success user c b toks dtc, by simp [Event.isSuccess], trivial⟩

/-- A successful debt loop ends with the success message and emits no
other success event. -/
lemma runDebts_success_split (ch : PlanChain) (ex : ExecOracle) (user : String)
    (c : SuppliedAsset) : ∀ bs, (runDebts ch ex user c bs).2 = .success →
    ∃ l, (runDebts ch ex user c bs).1 = l ++ [Event.liquidationSucceeded user] ∧
      l.all (fun e => !e.isSuccess) = true := by
  intro bs
  induction bs with
  | nil => intro h; simp [runDebts] at h
  | cons b bs ih =>
    intro hr
    rcases hp : planPair ch c b with ⟨toks, r⟩
    cases r with
    | error e => rw [runDebts_cons_error hp] at hr; simp at hr
    | ok dtc =>
      cases hx : ex user c.contract b.contract dtc with
      | success =>
        rw [runDebts_cons_success hp hx]
        exact ⟨pairEvents user c b toks dtc, rfl, pairEvents_no_success user c b toks dtc⟩
      | failure hm =>
        cases hm with
        | true =>
          rw [runDebts_cons_failtrue hp hx] at hr ⊢
          obtain ⟨l, hl, hlns⟩ := ih (by simpa using hr)
          refine ⟨pairEvents user c b toks dtc ++
            Event.liquidationFailed user c.contract b.contract :: l, ?_, ?_⟩
          · simp only [hl]
            simp
          · simp only [List.all_append, List.all_cons, Bool.and_eq_true]
            exact ⟨pairEvents_no_success user c b toks dtc, by simp [Event.isSuccess], hlns⟩
        | false =>
          rw [runDebts_cons_failfalse hp hx] at hr
          simp at hr

lemma runCollaterals_cons_dust {ch : PlanChain} {ex : ExecOracle} {user : String}
    {bs : List BorrowedAsset} {done : Bool} {c : SuppliedAsset} {cs : List SuppliedAsset}
    (hd : pyFloat c.fiatAmount < 1) :
    runCollaterals ch ex user bs done (c :: cs) =
      (Event.consideredCollateral user c.contract ::
        Event.skippedDustCollateral user c.contract ::
          (runCollaterals ch ex user bs done cs).1,
        (runCollaterals ch ex user bs done cs).2) := by
  simp [runCollaterals, hd]

lemma runCollaterals_cons_break {ch : PlanChain} {ex : ExecOracle} {user : String}
    {bs : List BorrowedAsset} {c : SuppliedAsset} {cs : List SuppliedAsset}
    (hd : ¬ pyFloat c.fiatAmount < 1) :
    runCollaterals ch ex user bs true (c :: cs) =
      ([Event.consideredCollateral user c.contract], none) := by
  simp [runCollaterals, hd]

lemma runCollaterals_events_aborted {ch : PlanChain} {ex : ExecOracle} {user : String}
    {bs : List BorrowedAsset} {c : SuppliedAsset} {cs : List SuppliedAsset}
    {evs : List Event} {e : PyErr} (hd : ¬ pyFloat c.fiatAmount < 1)
    (hrd : runDebts ch ex user c bs = (evs, DebtLoopResult.aborted e)) :
    (runCollaterals ch ex user bs false (c :: cs)).1 =
      Event.consideredCollateral user c.contract :: evs := by
  simp [runCollaterals, hd, hrd]

lemma runCollaterals_events_success {ch : PlanChain} {ex : ExecOracle} {user : String}
    {bs : List BorrowedAsset} {c : SuppliedAsset} {cs : List SuppliedAsset}
    {evs : List Event} (hd : ¬ pyFloat c.fiatAmount < 1)
    (hrd : runDebts ch ex user c bs = (evs, DebtLoopResult.success)) :
    (runCollaterals ch ex user bs false (c :: cs)).1 =
      Event.consideredCollateral user c.contract :: evs ++
        (runCollaterals ch ex user bs true cs).1 := by
  simp [runCollaterals, hd, hrd]

lemma runCollaterals_events_exhausted {ch : PlanChain} {ex : ExecOracle} {user : String}
    {bs : List BorrowedAsset} {c : SuppliedAsset} {cs : List SuppliedAsset}
    {evs : List Event} (hd : ¬ pyFloat c.fiatAmount < 1)
    (hrd : runDebts ch ex user c bs = (evs, DebtLoopResult.exhausted)) :
    (runCollaterals ch ex user bs false (c :: cs)).1 =
      Event.consideredCollateral user c.contract :: evs ++
        (runCollaterals ch ex user bs false cs).1 := by
  simp [runCollaterals, hd, hrd]

/-- With `done` already set, the collateral loop only prints and
dust-skips collaterals. -/
lemma runCollaterals_done_scan (ch : PlanChain) (ex : ExecOracle) (user : String)
    (bs : List BorrowedAsset) : ∀ cs,
    (runCollaterals ch ex user bs true cs).1.all Event.isCollateralScan = true := by
  intro cs
  induction cs with
  | nil => rfl
  | cons c cs ih =>
    by_cases hd : pyFloat c.fiatAmount < 1
    · rw [runCollaterals_cons_dust hd]
      simp [Event.isCollateralScan, ih]
    · rw [runCollaterals_cons_break hd]
      simp [Event.isCollateralScan]

/-- The collateral loop satisfies the after-success invariant for every
initial value of `done`. -/
lemma runCollaterals_nfaas (ch : PlanChain) (ex : ExecOracle) (user : String)
    (bs : List BorrowedAsset) : ∀ (cs : List SuppliedAsset) (done : Bool),
    noFurtherAttemptAfterSuccess (runCollaterals ch ex user bs done cs).1 = true := by
  intro cs
  induction cs with
  | nil => intro done; rfl
  | cons c cs ih =>
    intro done
    by_cases hd : pyFloat c.fiatAmount < 1
    · rw [runCollaterals_cons_dust hd]
      simp [noFurtherAttemptAfterSuccess, Event.isSuccess, ih done]
    · cases done with
      | true =>
        rw [runCollaterals_cons_break hd]
        simp [noFurtherAttemptAfterSuccess, Event.isSuccess]
      | false =>
        rcases hrd : runDebts ch ex user c bs with ⟨evs, r⟩
        cases r with
        | aborted e =>
          have hns := runDebts_no_success ch ex user c bs (by rw [hrd]; simp)
          rw [hrd] at hns
          rw [runCollaterals_events_aborted hd hrd]
          exact nfaas_of_no_success (by
            simp only [List.all_cons, Bool.and_eq_true]
            exact ⟨by simp [Event.isSuccess], hns⟩)
        | success =>
          obtain ⟨l, hl, hlns⟩ := runDebts_success_split ch ex user c bs (by rw [hrd])
          rw [hrd] at hl
          have hl2 : evs = l ++ [Event.liquidationSucceeded user] := hl
          rw [runCollaterals_events_success hd hrd]
          have hscan := runCollaterals_done_scan ch ex user bs cs
          have hrw : (Event.consideredCollateral user c.contract :: evs ++
              (runCollaterals ch ex user bs true cs).1 : List Event) =
              (Event.consideredCollateral user c.contract :: l) ++
                (Event.liquidationSucceeded user ::
                  (runCollaterals ch ex user bs true cs).1) := by
            simp only [hl2]
            simp
          rw [hrw, nfaas_append (by
            simp only [List.all_cons, Bool.and_eq_true]
            exact ⟨by simp [Event.isSuccess], hlns⟩)]
          exact nfaas_succ_cons user hscan
        | exhausted =>
          have hns := runDebts_no_success ch ex user c bs (by rw [hrd]; simp)
          rw [hrd] at hns
          rw [runCollaterals_events_exhausted hd hrd]
          have hrw : (Event.consideredCollateral user c.contract :: evs ++
              (runCollaterals ch ex user bs false cs).1 : List Event) =
              (Event.consideredCollateral user c.contract :: evs) ++
                (runCollaterals ch ex user bs false cs).1 := by
            simp
          rw [hrw, nfaas_append (by
            simp only [List.all_cons, Bool.and_eq_true]
            exact ⟨by simp [Event.isSuccess], hns⟩)]
          exact ih false

/-- Claim C4: once an execution attempt for a position succeeds, every
later event of that position's run is a mere collateral-scan print — no
further debt candidate of the same collateral and no further collateral is
evaluated, planned or attempted (at most one liquidation per position per
run). -/
theorem claim_C4_at_most_one_liquidation (ch : PlanChain) (ex : ExecOracle)
    (p : LiquidatablePosition) :
    noFurtherAttemptAfterSuccess (runPosition ch ex p).1 = true :=
  runCollaterals_nfaas ch ex p.address p.borrowedAssets (collateralCandidates p) false
